import Mathlib

/-!
Verification development for the ZerePy EVM plugin layer.

Shallow embedding of the three source files:
* `src/connections/sonic_connection.py` (namespace `Sonic`): the swap
  orchestration (`swap`), its helpers `get_balance`, `_get_swap_route`,
  `_get_encoded_swap_data`, `_handle_token_approval`.
* `src/helpers/evm/trade.py` (namespace `Trade`): `EvmTradeHelper.trade`.
* `src/actions/evm_actions.py` (namespace `Actions`): the dispatch wrappers.

External collaborators (chain RPC client, DEX aggregator HTTP service,
credential store, user input) are modelled as an oracle record `World`
whose fields are arbitrary functions; on-chain allowance state and the
count of submitted transactions are threaded explicitly.  Each operation
returns, besides its result, the list of externally observable events it
caused (aggregator requests, allowance reads, transaction submissions).
-/

namespace ZerePy

/-- Addresses, token identifiers, hex blobs are strings, as in the source. -/
abbrev Addr := String

/-- Python `int(x)` on an exact rational: truncation toward zero. -/
def pyInt (q : ℚ) : Int := if 0 ≤ q then Int.floor q else Int.ceil q

/-- `web3.to_wei(x, 'ether')`: multiply by 10^18 and take the integer part. -/
def toWei (q : ℚ) : Int := pyInt (q * 10 ^ 18)

/-- Python `str.lower()`, as a structurally recursive character map. -/
def pyLower (s : String) : String := ⟨s.data.map Char.toLower⟩

/-- Whether the first list leads the second one (structural recursion). -/
def listLeadsWith : List Char → List Char → Bool
  | [], _ => true
  | _ :: _, [] => false
  | p :: ps, c :: cs => p == c && listLeadsWith ps cs

/-- Python `str.startswith(pre)`. -/
def pyStartsWith (s pre : String) : Bool := listLeadsWith pre.data s.data

namespace Sonic

/-- `self.NATIVE_TOKEN` from `SonicConnection.__init__`. -/
def NATIVE_TOKEN : Addr := "0xEeeeeEeeeEeEeeEeEeEeeEEEeeeeEeeeeeeeEEeE"

/-- The hard-coded token address special-cased in `SonicConnection.swap`
(line 484 of `sonic_connection.py`, commented `# $S token`). -/
def S_TOKEN : Addr := "0x039e2fb66102314ce7b64ce5ce3e5183bc94ad38"

/-- The `data` object of a `/routes` aggregator response, with the two
fields `swap` reads: `route_data["routeSummary"]` (KeyError when absent,
hence `Option`) and `route_data.get("routerAddress")`. -/
structure RouteData where
  routeSummary : Option String
  routerAddress : Option Addr
deriving DecidableEq

/-- A `/routes` aggregator response: `{code, message, data}`;
`data` is `none` when the field is absent or not a dict. -/
structure RouteApiResp where
  code : Int
  message : String
  data : Option RouteData
deriving DecidableEq

/-- The JSON payload `_get_encoded_swap_data` posts to `/route/build`. -/
structure EncodePayload where
  routeSummary : String
  sender : Addr
  recipient : Addr
  slippageTolerance : Int
  deadline : Int
  source : String
deriving DecidableEq

/-- A `/route/build` response: `{code, message, data: {data: ...}}`;
`encodedData` is `none` when `data.get("data", {}).get("data")` is
missing or not a string. -/
structure EncodeApiResp where
  code : Int
  message : String
  encodedData : Option String
deriving DecidableEq

/-- The transaction parameters `swap` assembles (`base_tx`), minus the
gas limit which is chosen afterwards. -/
structure TxParams where
  toAddr : Addr
  data : String
  nonce : Nat
  gasPrice : Nat
  chainId : Nat
  value : Int
deriving DecidableEq

/-- Externally observable events of a swap run: aggregator HTTP requests,
the ERC20 `allowance` read, and raw-transaction submissions. -/
inductive Event where
  | routeQuery (tokenIn tokenOut : Addr) (amountInRaw : Int)
  | encodeCall (payload : EncodePayload)
  | allowanceQuery (token spender : Addr)
  | approvalSubmit (token spender : Addr) (amount : Int)
  | swapSubmit (tx : TxParams) (gas : Nat)
deriving DecidableEq

/-- The error taxonomy raised by the connection: every `raise` site of
the swap path in `sonic_connection.py` gets one constructor. -/
inductive SwapErr where
  | web3NotInitialized
  | noWalletConfigured
  | insufficientBalance (required available : ℚ)
  | routeApiError (msg : String)
  | invalidRouteData
  | keyError (k : String)
  | encodeApiError (msg : String)
  | invalidEncodedData
  | noRouterAddress
  | approvalFailed
  | swapFailed
  | confirmationTimeout
deriving DecidableEq

/-- The oracle for all external collaborators of `SonicConnection`:
chain RPC reads, the aggregator service, the credential store, and the
receipt/hash each submitted transaction eventually gets (indexed by the
order of submission). -/
structure World where
  web3Ok : Bool
  privateKey : Option String
  accountAddr : Addr
  nativeRawBalance : Addr → Nat
  tokenRawBalance : Addr → Addr → Nat
  decimals : Addr → Nat
  routeResp : Addr → Addr → Int → RouteApiResp
  encodeResp : EncodePayload → EncodeApiResp
  timeNow : Int
  nonce : Nat
  gasPrice : Nat
  chainId : Nat
  estimateGas : TxParams → Except Unit Nat
  receiptOutcome : Nat → Except Unit Nat
  txHash : Nat → String
  explorer : String

/-- On-chain ERC20 allowance state: token → owner → spender → amount. -/
structure Chain where
  allowance : Addr → Addr → Addr → Int

/-- ERC20 `approve(spender, amount)` semantics on the allowance map:
the allowance of `spender` for `owner`'s `token` becomes exactly `amt`. -/
def setAllowance (c : Chain) (token owner spender : Addr) (amt : Int) : Chain :=
  ⟨fun t o s => if t = token ∧ o = owner ∧ s = spender then amt else c.allowance t o s⟩

/-- Mutable context threaded through a swap run: the chain's allowance
state and how many transactions this process has submitted so far. -/
structure SwapState where
  chain : Chain
  txCount : Nat

/-- `SonicConnection.get_balance`: native balance in ether units, or an
ERC20 balance divided by `10 ** decimals`; checks web3 first and needs
the configured key only when no address is passed. -/
def get_balance (w : World) (address : Option Addr) (token_address : Option Addr) :
    Except SwapErr ℚ :=
  if ¬ w.web3Ok then .error .web3NotInitialized
  else
    match address, w.privateKey with
    | none, none => .error .noWalletConfigured
    | none, some _ =>
      match token_address with
      | some t => .ok ((w.tokenRawBalance t w.accountAddr : ℚ) / 10 ^ w.decimals t)
      | none => .ok ((w.nativeRawBalance w.accountAddr : ℚ) / 10 ^ (18 : ℕ))
    | some a, _ =>
      match token_address with
      | some t => .ok ((w.tokenRawBalance t a : ℚ) / 10 ^ w.decimals t)
      | none => .ok ((w.nativeRawBalance a : ℚ) / 10 ^ (18 : ℕ))

/-- The raw `amountIn` computed by `_get_swap_route`: `to_wei(amount,
'ether')` for the native sentinel, else `int(amount * 10 ** decimals)`
with the token's on-chain `decimals()`. -/
def rawAmountIn (w : World) (token_in : Addr) (amount_in : ℚ) : Int :=
  if pyLower token_in = pyLower NATIVE_TOKEN then toWei amount_in
  else pyInt (amount_in * 10 ^ w.decimals token_in)

/-- `SonicConnection._get_swap_route`: convert the amount to raw units,
query `GET /routes`, raise on non-zero `code` or a malformed `data`. -/
def get_swap_route (w : World) (token_in token_out : Addr) (amount_in : ℚ) :
    List Event × Except SwapErr RouteData :=
  if ¬ w.web3Ok then ([], .error .web3NotInitialized)
  else
    let amount_raw := rawAmountIn w token_in amount_in
    let resp := w.routeResp token_in token_out amount_raw
    ([.routeQuery token_in token_out amount_raw],
      if resp.code ≠ 0 then .error (.routeApiError resp.message)
      else match resp.data with
        | none => .error .invalidRouteData
        | some rd => .ok rd)

/-- The JSON payload assembled by `_get_encoded_swap_data`:
`slippageTolerance = int(slippage * 100)` (basis-point conversion) and
`deadline = int(time.time() + 1200)` (20 minutes). -/
def mkPayload (w : World) (route_summary : String) (slippage : ℚ) : EncodePayload :=
  { routeSummary := route_summary
    sender := w.accountAddr
    recipient := w.accountAddr
    slippageTolerance := pyInt (slippage * 100)
    deadline := w.timeNow + 1200
    source := "ZerePyBot" }

/-- `SonicConnection._get_encoded_swap_data`: post the route summary to
`POST /route/build`; raise on non-zero `code` or missing call data. -/
def get_encoded_swap_data (w : World) (route_summary : String) (slippage : ℚ) :
    List Event × Except SwapErr String :=
  if ¬ w.web3Ok then ([], .error .web3NotInitialized)
  else
    match w.privateKey with
    | none => ([], .error .noWalletConfigured)
    | some _ =>
      let payload := mkPayload w route_summary slippage
      let resp := w.encodeResp payload
      ([.encodeCall payload],
        if resp.code ≠ 0 then .error (.encodeApiError resp.message)
        else match resp.encodedData with
          | none => .error .invalidEncodedData
          | some s => .ok s)

/-- `SonicConnection._handle_token_approval`: read the current allowance
of `spender`; if it is below `amount`, build, sign and submit an
`approve(spender, amount)` transaction and block until its receipt,
raising when the receipt's status is not 1.  A successful approval
updates the on-chain allowance to exactly `amount` (ERC20 semantics). -/
def handle_token_approval (w : World) (st : SwapState) (token spender : Addr)
    (amount : Int) : SwapState × List Event × Except SwapErr Unit :=
  if ¬ w.web3Ok then (st, [], .error .web3NotInitialized)
  else
    match w.privateKey with
    | none => (st, [], .error .noWalletConfigured)
    | some _ =>
      let current := st.chain.allowance token w.accountAddr spender
      if current < amount then
        let idx := st.txCount
        let evs : List Event := [.allowanceQuery token spender, .approvalSubmit token spender amount]
        match w.receiptOutcome idx with
        | .error _ => ({ st with txCount := idx + 1 }, evs, .error .confirmationTimeout)
        | .ok status =>
          if status ≠ 1 then ({ st with txCount := idx + 1 }, evs, .error .approvalFailed)
          else
            ({ chain := setAllowance st.chain token w.accountAddr spender amount
               txCount := idx + 1 }, evs, .ok ())
      else (st, [.allowanceQuery token spender], .ok ())

/-- The raw approval amount computed inside `swap` for a non-native
input token: `to_wei(amount, 'ether')` for the hard-coded `S_TOKEN`
address, else `int(amount * 10 ** decimals)` with on-chain decimals. -/
def approvalAmount (w : World) (token_in : Addr) (amount : ℚ) : Int :=
  if pyLower token_in = pyLower S_TOKEN then toWei amount
  else pyInt (amount * 10 ^ w.decimals token_in)

/-- The `base_tx` dict assembled by `swap`: destination is the router,
call data the encoded bytes, `value` the raw native amount when the
input token is the native sentinel and zero otherwise. -/
def mkBaseTx (w : World) (token_in router_address encoded_data : Addr) (amount : ℚ) :
    TxParams :=
  { toAddr := router_address
    data := encoded_data
    nonce := w.nonce
    gasPrice := w.gasPrice
    chainId := w.chainId
    value := if pyLower token_in = pyLower NATIVE_TOKEN then toWei amount else 0 }

/-- The gas limit `swap` uses: the estimator's answer, or the fixed
fallback 500000 when estimation raises. -/
def gasChosen (w : World) (tx : TxParams) : Nat :=
  match w.estimateGas tx with
  | .ok g => g
  | .error _ => 500000

/-- `SonicConnection.swap`: the full orchestration — web3 and key
checks, balance check, route query, encode call, conditional approval,
transaction build, gas estimation with 500000 fallback, submission and
receipt check.  Default `slippage` is `0.5`, as in the source. -/
def swap (w : World) (st : SwapState) (token_in token_out : Addr) (amount : ℚ)
    (slippage : ℚ := 1/2) : SwapState × List Event × Except SwapErr String :=
  if ¬ w.web3Ok then (st, [], .error .web3NotInitialized)
  else
    match w.privateKey with
    | none => (st, [], .error .noWalletConfigured)
    | some _ =>
      match get_balance w (some w.accountAddr)
          (if pyLower token_in = pyLower NATIVE_TOKEN then none else some token_in) with
      | .error e => (st, [], .error e)
      | .ok current_balance =>
        if current_balance < amount then
          (st, [], .error (.insufficientBalance amount current_balance))
        else
          match get_swap_route w token_in token_out amount with
          | (ev₁, .error e) => (st, ev₁, .error e)
          | (ev₁, .ok route_data) =>
            match route_data.routeSummary with
            | none => (st, ev₁, .error (.keyError "routeSummary"))
            | some summary =>
              match get_encoded_swap_data w summary slippage with
              | (ev₂, .error e) => (st, ev₁ ++ ev₂, .error e)
              | (ev₂, .ok encoded_data) =>
                match route_data.routerAddress with
                | none => (st, ev₁ ++ ev₂, .error .noRouterAddress)
                | some router_address =>
                  if router_address = "" then (st, ev₁ ++ ev₂, .error .noRouterAddress)
                  else
                    match
                      (if pyLower token_in ≠ pyLower NATIVE_TOKEN then
                        handle_token_approval w st token_in router_address
                          (approvalAmount w token_in amount)
                      else (st, [], .ok ())) with
                    | (st₁, ev₃, .error e) => (st₁, ev₁ ++ ev₂ ++ ev₃, .error e)
                    | (st₁, ev₃, .ok _) =>
                      let base_tx := mkBaseTx w token_in router_address encoded_data amount
                      let gas := gasChosen w base_tx
                      let idx := st₁.txCount
                      let st₂ : SwapState := { st₁ with txCount := idx + 1 }
                      let evs := ev₁ ++ ev₂ ++ ev₃ ++ [.swapSubmit base_tx gas]
                      match w.receiptOutcome idx with
                      | .error _ => (st₂, evs, .error .confirmationTimeout)
                      | .ok status =>
                        if status ≠ 1 then (st₂, evs, .error .swapFailed)
                        else
                          (st₂, evs,
                            .ok ("🔄 Swap transaction sent: " ++ w.explorer ++ "/tx/"
                              ++ w.txHash idx))

/-- Whether an event is an approval-transaction submission. -/
def isApprovalSubmit : Event → Bool
  | .approvalSubmit _ _ _ => true
  | _ => false

/-- Whether an event is the main swap-transaction submission. -/
def isSwapSubmit : Event → Bool
  | .swapSubmit _ _ => true
  | _ => false

/-- Whether an event is an HTTP request to the aggregator service. -/
def isAggregatorCall : Event → Bool
  | .routeQuery _ _ _ => true
  | .encodeCall _ => true
  | _ => false

/-- Whether an event is an allowance read (the approval manager's first
action, so its presence witnesses that the manager was invoked). -/
def isAllowanceQuery : Event → Bool
  | .allowanceQuery _ _ => true
  | _ => false

/-- `_handle_token_approval` run twice in sequence (as two successive
Python statements: the second call runs only when the first returns
normally), accumulating events. -/
def handle_token_approval_twice (w : World) (st : SwapState) (token spender : Addr)
    (amount : Int) : SwapState × List Event × Except SwapErr Unit :=
  match handle_token_approval w st token spender amount with
  | (st₁, ev₁, .error e) => (st₁, ev₁, .error e)
  | (st₁, ev₁, .ok _) =>
    match handle_token_approval w st₁ token spender amount with
    | (st₂, ev₂, r) => (st₂, ev₁ ++ ev₂, r)

end Sonic

namespace Trade

/-- A transaction dict built in `EvmTradeHelper.trade`: the literal keys
passed to `build_transaction` (`gas`, `gasPrice`, `from`, and `nonce`
for the swap transaction only).  `GAS`, `GAS_PRICE`, `GAS_PRICE_UNIT`
come from `src.constants`, a module outside the given sources, so their
values live in the oracle. -/
structure TTx where
  gas : Nat
  gasPriceWei : Int
  fromAddr : ZerePy.Addr
  nonce : Option Nat
deriving DecidableEq

/-- Observable submissions of `EvmTradeHelper.trade`.  `submitApproval`
exists so the trace type can express an approval broadcast; the source
never performs one (its `web3.eth.send_transaction(tx_1)` line is
commented out). -/
inductive TEvent where
  | submitApproval (tx : TTx) (spender : ZerePy.Addr) (amount : Int)
  | submitSwap (tx : TTx) (amountInRaw : Int)
deriving DecidableEq

/-- The unhandled errors `EvmTradeHelper.trade` can raise: a failure
fetching details of a missing input token, the zero-balance assertion,
`sys.exit(1)` on an unconfirmed prompt, a `NameError` for an unbound
local, and the assertion raised on a reverted transaction. -/
inductive TradeErr where
  | invalidTokenAddress
  | zeroQuoteBalance
  | systemExit (code : Nat)
  | nameError (ident : String)
  | txFailed (hash reason : String)
deriving DecidableEq

/-- Oracle for `EvmTradeHelper.trade`'s collaborators: chain reads,
ERC20 details, the interactive confirmation prompt, and the constants
imported from the `src.constants` module (absent from the sources). -/
structure TWorld where
  accountAddr : ZerePy.Addr
  routerAddr : ZerePy.Addr
  chainId : Nat
  quoteBalance : ℚ
  baseBalance : ℚ
  gasBalanceWei : Nat
  readDecimals : ZerePy.Addr → Nat
  tokenDecimals : ZerePy.Addr → Nat
  allowance : ZerePy.Addr → ZerePy.Addr → Int
  userConfirm : String
  nonce : Nat
  gasConst : Nat
  gasPriceWei : Int
  txHash2 : String
  receiptStatus : String → Nat
  revertReason : String → String

/-- `EvmTradeHelper.trade` from `src/helpers/evm/trade.py`: balance
assertion, decimals read, confirmation prompt, raw-amount conversion,
allowance check (note the source divides the raw allowance by
`10**decimals` and compares that against the raw amount), approval
transaction *built but never submitted* (the `send_transaction(tx_1)`
line is commented out, so the local `tx_hash_1` is never assigned),
swap submission, then the broadcast log line which evaluates
`tx_hash_1.hex()` — an unbound name.  The code after that point is
reproduced under the `some` branch of `tx_hash_1` for fidelity. -/
def trade (w : TWorld) (output_token : ZerePy.Addr) (input_amount : ℚ)
    (input_token : Option ZerePy.Addr) (slippage_bps : Nat := 100) :
    List TEvent × Except TradeErr Unit :=
  match input_token with
  | none => ([], .error .invalidTokenAddress)
  | some quote_token =>
    if ¬ (w.quoteBalance > 0) then ([], .error .zeroQuoteBalance)
    else
      let decimals := w.readDecimals quote_token
      if ¬ pyStartsWith (ZerePy.pyLower w.userConfirm) "y" then ([], .error (.systemExit 1))
      else
        let raw_amount : Int := ZerePy.pyInt (input_amount * 10 ^ w.tokenDecimals quote_token)
        let needs_approval : ℚ :=
          (w.allowance w.accountAddr w.routerAddr : ℚ) / 10 ^ decimals
        let tx_1 : Option TTx :=
          if needs_approval ≥ (raw_amount : ℚ) then none
          else some { gas := w.gasConst, gasPriceWei := w.gasPriceWei
                      fromAddr := w.accountAddr, nonce := none }
        -- `# tx_hash_1 = web3.eth.send_transaction(tx_1)` is commented out
        -- in the source, so tx_hash_1 is never assigned in the function.
        let tx_hash_1 : Option String := none
        let tx_2 : TTx := { gas := w.gasConst, gasPriceWei := w.gasPriceWei
                            fromAddr := w.accountAddr, nonce := some w.nonce }
        let tx_hash_2 := w.txHash2
        let evs : List TEvent := [.submitSwap tx_2 raw_amount]
        match tx_hash_1 with
        | none => (evs, .error (.nameError "tx_hash_1"))
        | some h₁ =>
          -- dead code in the source, transcribed for fidelity
          let _broadcast_log := h₁ ++ ", " ++ tx_hash_2
          if w.receiptStatus tx_hash_2 = 0 then
            (evs, .error (.txFailed tx_hash_2 (w.revertReason tx_hash_2)))
          else (evs, .ok ())

/-- Whether a trade event is an approval submission. -/
def isTApproval : TEvent → Bool
  | .submitApproval _ _ _ => true
  | _ => false

/-- Whether a trade event is the main swap submission. -/
def isTSwap : TEvent → Bool
  | .submitSwap _ _ => true
  | _ => false

end Trade

namespace Actions

/-- Loosely-typed Python values crossing the dispatch boundary. -/
inductive PyVal where
  | none
  | bool (b : Bool)
  | str (s : String)
  | num (q : ℚ)
  | list (xs : List PyVal)
  | emptyDict

/-- A keyword-argument bag: `kwargs.get(k)` yields `PyVal.none` when
the key is absent. -/
abbrev Kwargs := String → Option PyVal

/-- `kwargs.get(k)` / `kwargs.get(k, None)`. -/
def kget (kw : Kwargs) (k : String) : PyVal := (kw k).getD .none

/-- `kwargs.get(k, d)` with an explicit default. -/
def kgetD (kw : Kwargs) (k : String) (d : PyVal) : PyVal := (kw k).getD d

/-- The opaque `agent.connection_manager.perform_action`: takes the
connection name, the action name, and the positional parameter list,
and either returns a value or raises (modelled as `Except`). -/
abbrev Perform := String → String → List PyVal → Except String PyVal

/-- `evm_transfer` from `evm_actions.py`: forwards, catches every
exception and returns `False`. -/
def evm_transfer (perform : Perform) (kw : Kwargs) : Except String PyVal :=
  match perform "evm" "transfer"
      [kget kw "to_address", kget kw "amount", kget kw "token_mint"] with
  | .ok result => .ok result
  | .error _ => .ok (.bool false)

/-- `evm_swap`: forwards to the `trade` action, catches, returns `False`. -/
def evm_swap (perform : Perform) (kw : Kwargs) : Except String PyVal :=
  match perform "evm" "trade"
      [kget kw "output_mint", kget kw "input_amount", kget kw "input_mint",
        kgetD kw "slippage_bps" (.num 100)] with
  | .ok result => .ok result
  | .error _ => .ok (.bool false)

/-- `evm_balance`: forwards to `get-balance`, catches, returns `None`. -/
def evm_balance (perform : Perform) (kw : Kwargs) : Except String PyVal :=
  match perform "evm" "get-balance" [kget kw "token_address"] with
  | .ok result => .ok result
  | .error _ => .ok .none

/-- `evm_stake`: forwards to `stake`, catches, returns `False`. -/
def evm_stake (perform : Perform) (kw : Kwargs) : Except String PyVal :=
  match perform "evm" "stake" [kget kw "amount"] with
  | .ok result => .ok result
  | .error _ => .ok (.bool false)

/-- `evm_lend`: forwards to `lend-assets`, catches, returns `False`. -/
def evm_lend (perform : Perform) (kw : Kwargs) : Except String PyVal :=
  match perform "evm" "lend-assets" [kget kw "amount"] with
  | .ok result => .ok result
  | .error _ => .ok (.bool false)

/-- `request_faucet_funds`: forwards to `request-faucet`, catches,
returns `False`. -/
def request_faucet_funds (perform : Perform) (kw : Kwargs) : Except String PyVal :=
  match perform "evm" "request-faucet" [] with
  | .ok result => .ok result
  | .error _ => .ok (.bool false)

/-- `evm_deploy_token`: forwards to `deploy-token`, catches, returns
`False`. -/
def evm_deploy_token (perform : Perform) (kw : Kwargs) : Except String PyVal :=
  match perform "evm" "deploy-token" [kgetD kw "decimals" (.num 9)] with
  | .ok result => .ok result
  | .error _ => .ok (.bool false)

/-- `evm_get_price`: forwards to `fetch-price`, catches, returns `None`. -/
def evm_get_price (perform : Perform) (kw : Kwargs) : Except String PyVal :=
  match perform "evm" "fetch-price" [kget kw "token_id"] with
  | .ok result => .ok result
  | .error _ => .ok .none

/-- `evm_get_tps`: forwards to `get-tps`, catches, returns `None`. -/
def evm_get_tps (perform : Perform) (kw : Kwargs) : Except String PyVal :=
  match perform "evm" "get-tps" [] with
  | .ok result => .ok result
  | .error _ => .ok .none

/-- `get_token_data_by_ticker`: forwards, catches, returns `None`. -/
def get_token_data_by_ticker (perform : Perform) (kw : Kwargs) : Except String PyVal :=
  match perform "evm" "get-token-by-ticker" [kget kw "ticker"] with
  | .ok result => .ok result
  | .error _ => .ok .none

/-- `get_token_data_by_address`: forwards, catches, returns `None`. -/
def get_token_data_by_address (perform : Perform) (kw : Kwargs) : Except String PyVal :=
  match perform "evm" "get-token-by-address" [kget kw "mint"] with
  | .ok result => .ok result
  | .error _ => .ok .none

/-- `launch_pump_fun_token`: forwards, catches, returns `False`. -/
def launch_pump_fun_token (perform : Perform) (kw : Kwargs) : Except String PyVal :=
  match perform "evm" "launch-pump-token"
      [kget kw "token_name", kget kw "token_ticker", kget kw "description",
        kget kw "image_url", kgetD kw "options" .emptyDict] with
  | .ok result => .ok result
  | .error _ => .ok (.bool false)

/-- `list_contract_functions`: forwards, catches, returns `None`. -/
def list_contract_functions (perform : Perform) (kw : Kwargs) : Except String PyVal :=
  match perform "evm" "list-contract-functions" [kget kw "contract_address"] with
  | .ok result => .ok result
  | .error _ => .ok .none

/-- `call_contract_function`: forwards, catches, returns `None`. -/
def call_contract_function (perform : Perform) (kw : Kwargs) : Except String PyVal :=
  match perform "evm" "call-contract-function"
      [kget kw "contract_address", kget kw "function_name",
        kgetD kw "args" (.list [])] with
  | .ok result => .ok result
  | .error _ => .ok .none

/-- `wrap_eth`: forwards to `wrap-eth`, catches, returns `False`. -/
def wrap_eth (perform : Perform) (kw : Kwargs) : Except String PyVal :=
  match perform "evm" "wrap-eth" [kget kw "amount"] with
  | .ok result => .ok result
  | .error _ => .ok (.bool false)

/-- An action never raises: it always produces a normal return value. -/
def neverRaises (r : Except String PyVal) : Prop := ∀ e, r ≠ .error e

/-- A performer that always raises, for exercising the failure boundary. -/
def failPerform : Perform := fun _ _ _ => .error "boom"

/-- An empty keyword bag. -/
def emptyKwargs : Kwargs := fun _ => none

end Actions

namespace Sonic

/-- Replace the gas limit of a swap submission by the 500000 fallback;
other events are untouched. -/
def setFallbackGas : Event → Event
  | .swapSubmit tx _ => .swapSubmit tx 500000
  | e => e

end Sonic

/-- A fully healthy concrete oracle: configured key, ample balances,
18-decimals tokens, a cooperative aggregator and succeeding receipts. -/
def baseWorld : Sonic.World :=
  { web3Ok := true
    privateKey := some "0xkey"
    accountAddr := "0xACC"
    nativeRawBalance := fun _ => 100 * 10 ^ 18
    tokenRawBalance := fun _ _ => 100 * 10 ^ 18
    decimals := fun _ => 18
    routeResp := fun _ _ _ =>
      { code := 0, message := "",
        data := some { routeSummary := some "sum", routerAddress := some "0xR" } }
    encodeResp := fun _ => { code := 0, message := "", encodedData := some "0xdata" }
    timeNow := 1000
    nonce := 7
    gasPrice := 5
    chainId := 146
    estimateGas := fun _ => .ok 21000
    receiptOutcome := fun _ => .ok 1
    txHash := fun _ => "0xhash"
    explorer := "https://scan" }

/-- Zero on-chain allowances, no transactions submitted yet. -/
def st0 : Sonic.SwapState := { chain := ⟨fun _ _ _ => 0⟩, txCount := 0 }

/-- Enormous pre-existing allowances, no transactions submitted yet. -/
def stBig : Sonic.SwapState := { chain := ⟨fun _ _ _ => 10 ^ 30⟩, txCount := 0 }

/-- `baseWorld` with only 5 whole tokens of balance everywhere. -/
def lowBalanceWorld : Sonic.World :=
  { baseWorld with
    nativeRawBalance := fun _ => 5 * 10 ^ 18
    tokenRawBalance := fun _ _ => 5 * 10 ^ 18 }

/-- `baseWorld` but every token reports 6 on-chain decimals. -/
def sixDecimalsWorld : Sonic.World :=
  { baseWorld with decimals := fun _ => 6 }

/-- `baseWorld` but the aggregator reports failure code 4 on `/routes`. -/
def routeFailWorld : Sonic.World :=
  { baseWorld with
    routeResp := fun _ _ _ => { code := 4, message := "no route", data := none } }

/-- `baseWorld` but the `/route/build` call reports failure code 1. -/
def encodeFailWorld : Sonic.World :=
  { baseWorld with
    encodeResp := fun _ => { code := 1, message := "err", encodedData := none } }

/-- `baseWorld` but every receipt reports failure status 0. -/
def receiptFailWorld : Sonic.World :=
  { baseWorld with receiptOutcome := fun _ => .ok 0 }

/-- `baseWorld` with a gas estimator that always raises. -/
def estimateFailWorld : Sonic.World :=
  { baseWorld with estimateGas := fun _ => .error () }

/-- `baseWorld` with a gas estimator that always answers 21000. -/
def estimateOkWorld : Sonic.World :=
  { baseWorld with estimateGas := fun _ => .ok 21000 }

/-- A concrete oracle for `EvmTradeHelper.trade`: positive quote
balance, zero allowance for the router, and a user who confirms. -/
def tradeWorld : Trade.TWorld :=
  { accountAddr := "0xACC"
    routerAddr := "0xR"
    chainId := 1
    quoteBalance := 1
    baseBalance := 0
    gasBalanceWei := 10 ^ 18
    readDecimals := fun _ => 18
    tokenDecimals := fun _ => 18
    allowance := fun _ _ => 0
    userConfirm := "y"
    nonce := 3
    gasConst := 2500000
    gasPriceWei := 50
    txHash2 := "0xh2"
    receiptStatus := fun _ => 1
    revertReason := fun _ => "execution reverted" }

/-- The swap transaction `trade` builds over `tradeWorld`. -/
def tradeTx2 : Trade.TTx :=
  { gas := 2500000, gasPriceWei := 50, fromAddr := "0xACC", nonce := some 3 }

end ZerePy

namespace ZerePy

namespace Sonic

/-- With a working web3, `_get_swap_route` performs exactly one
aggregator request, carrying the raw converted amount, and its result
is determined by that response. -/
theorem get_swap_route_eq (w : World) (a b : Addr) (c : ℚ) (hw : w.web3Ok = true) :
    get_swap_route w a b c =
      ([Event.routeQuery a b (rawAmountIn w a c)],
        if (w.routeResp a b (rawAmountIn w a c)).code ≠ 0 then
          .error (.routeApiError (w.routeResp a b (rawAmountIn w a c)).message)
        else
          match (w.routeResp a b (rawAmountIn w a c)).data with
          | none => .error .invalidRouteData
          | some rd => .ok rd) := by
  simp [get_swap_route, hw]

/-- With a working web3 and a configured key, `_get_encoded_swap_data`
performs exactly one route-build request with payload `mkPayload`. -/
theorem get_encoded_swap_data_eq (w : World) (s : String) (sl : ℚ)
    (hw : w.web3Ok = true) (k : String) (hk : w.privateKey = some k) :
    get_encoded_swap_data w s sl =
      ([Event.encodeCall (mkPayload w s sl)],
        if (w.encodeResp (mkPayload w s sl)).code ≠ 0 then
          .error (.encodeApiError (w.encodeResp (mkPayload w s sl)).message)
        else
          match (w.encodeResp (mkPayload w s sl)).encodedData with
          | none => .error .invalidEncodedData
          | some d => .ok d) := by
  simp [get_encoded_swap_data, hw, hk]

/-- Every event of `_handle_token_approval` is the allowance read or
the approval submission, for exactly the requested token, spender and
amount. -/
theorem handle_events_shape (w : World) (st : SwapState) (token spender : Addr)
    (amount : Int) :
    ∀ e ∈ (handle_token_approval w st token spender amount).2.1,
      e = Event.allowanceQuery token spender ∨
      e = Event.approvalSubmit token spender amount := by
  intro e he
  cases hw : w.web3Ok with
  | false => simp [handle_token_approval, hw] at he
  | true =>
    cases hk : w.privateKey with
    | none => simp [handle_token_approval, hw, hk] at he
    | some k =>
      by_cases hcur : st.chain.allowance token w.accountAddr spender < amount
      · cases hr : w.receiptOutcome st.txCount with
        | error u =>
          simp [handle_token_approval, hw, hk, hcur, hr] at he
          rcases he with h | h <;> simp [h]
        | ok status =>
          by_cases hs : status = 1
          · simp [handle_token_approval, hw, hk, hcur, hr, hs] at he
            rcases he with h | h <;> simp [h]
          · simp [handle_token_approval, hw, hk, hcur, hr, hs] at he
            rcases he with h | h <;> simp [h]
      · simp [handle_token_approval, hw, hk, hcur] at he
        simp [he]

/-- Reading back the allowance just written by `setAllowance`. -/
theorem setAllowance_self (c : Chain) (t o s : Addr) (a : Int) :
    (setAllowance c t o s a).allowance t o s = a := by
  simp [setAllowance]

/-- Exhaustive characterization of `_handle_token_approval`: the two
precondition failures, the sufficient-allowance no-op, and the three
outcomes of a submitted approval transaction (timeout, failed receipt,
success — the last updating the on-chain allowance to the approved
amount). -/
theorem handle_spec (w : World) (st : SwapState) (token spender : Addr) (amount : Int) :
    (w.web3Ok = false ∧
      handle_token_approval w st token spender amount = (st, [], .error .web3NotInitialized)) ∨
    (w.web3Ok = true ∧ w.privateKey = none ∧
      handle_token_approval w st token spender amount = (st, [], .error .noWalletConfigured)) ∨
    (w.web3Ok = true ∧ (∃ k, w.privateKey = some k) ∧
      amount ≤ st.chain.allowance token w.accountAddr spender ∧
      handle_token_approval w st token spender amount =
        (st, [Event.allowanceQuery token spender], .ok ())) ∨
    (w.web3Ok = true ∧ (∃ k, w.privateKey = some k) ∧
      st.chain.allowance token w.accountAddr spender < amount ∧
      ((w.receiptOutcome st.txCount = .error () ∧
        handle_token_approval w st token spender amount =
          ({ st with txCount := st.txCount + 1 },
            [Event.allowanceQuery token spender, Event.approvalSubmit token spender amount],
            .error .confirmationTimeout)) ∨
      (∃ s, w.receiptOutcome st.txCount = .ok s ∧ s ≠ 1 ∧
        handle_token_approval w st token spender amount =
          ({ st with txCount := st.txCount + 1 },
            [Event.allowanceQuery token spender, Event.approvalSubmit token spender amount],
            .error .approvalFailed)) ∨
      (w.receiptOutcome st.txCount = .ok 1 ∧
        handle_token_approval w st token spender amount =
          ({ chain := setAllowance st.chain token w.accountAddr spender amount,
             txCount := st.txCount + 1 },
            [Event.allowanceQuery token spender, Event.approvalSubmit token spender amount],
            .ok ())))) := by
  cases hw : w.web3Ok with
  | false => exact Or.inl ⟨rfl, by simp [handle_token_approval, hw]⟩
  | true =>
    cases hk : w.privateKey with
    | none => exact Or.inr (Or.inl ⟨rfl, rfl, by simp [handle_token_approval, hw, hk]⟩)
    | some k =>
      by_cases hcur : st.chain.allowance token w.accountAddr spender < amount
      · refine Or.inr (Or.inr (Or.inr ⟨rfl, ⟨k, rfl⟩, hcur, ?_⟩))
        cases hr : w.receiptOutcome st.txCount with
        | error u =>
          cases u
          exact Or.inl ⟨rfl, by simp [handle_token_approval, hw, hk, hcur, hr]⟩
        | ok status =>
          by_cases hs : status = 1
          · subst hs
            exact Or.inr (Or.inr ⟨rfl,
              by simp [handle_token_approval, hw, hk, hcur, hr]⟩)
          · exact Or.inr (Or.inl ⟨status, rfl, hs,
              by simp [handle_token_approval, hw, hk, hcur, hr, hs]⟩)
      · exact Or.inr (Or.inr (Or.inl ⟨rfl, ⟨k, rfl⟩, not_lt.mp hcur,
          by simp [handle_token_approval, hw, hk, hcur]⟩))

/-- Exhaustive characterization of `swap`: a run either stops before
any external event, stops after the route query, stops after the
route-build call, stops inside the approval manager, or reaches the
submission of the main swap transaction, whose receipt then decides the
outcome. -/
theorem swap_spec (w : World) (st : SwapState) (tin tout : Addr) (amt slip : ℚ) :
    (∃ e, swap w st tin tout amt slip = (st, [], .error e)) ∨
    (∃ e, swap w st tin tout amt slip =
      (st, [Event.routeQuery tin tout (rawAmountIn w tin amt)], .error e)) ∨
    (∃ summary e,
      (w.routeResp tin tout (rawAmountIn w tin amt)).code = 0 ∧
      (∃ rd, (w.routeResp tin tout (rawAmountIn w tin amt)).data = some rd ∧
        rd.routeSummary = some summary) ∧
      swap w st tin tout amt slip =
        (st, [Event.routeQuery tin tout (rawAmountIn w tin amt),
          Event.encodeCall (mkPayload w summary slip)], .error e)) ∨
    (∃ summary router st₁ ev₃ e,
      (w.routeResp tin tout (rawAmountIn w tin amt)).code = 0 ∧
      (∃ rd, (w.routeResp tin tout (rawAmountIn w tin amt)).data = some rd ∧
        rd.routeSummary = some summary ∧ rd.routerAddress = some router) ∧
      pyLower tin ≠ pyLower NATIVE_TOKEN ∧
      handle_token_approval w st tin router (approvalAmount w tin amt) =
        (st₁, ev₃, .error e) ∧
      swap w st tin tout amt slip =
        (st₁, [Event.routeQuery tin tout (rawAmountIn w tin amt),
          Event.encodeCall (mkPayload w summary slip)] ++ ev₃, .error e)) ∨
    (∃ summary router enc st₁ ev₃ res,
      (w.routeResp tin tout (rawAmountIn w tin amt)).code = 0 ∧
      (∃ rd, (w.routeResp tin tout (rawAmountIn w tin amt)).data = some rd ∧
        rd.routeSummary = some summary ∧ rd.routerAddress = some router) ∧
      ((pyLower tin ≠ pyLower NATIVE_TOKEN ∧
        handle_token_approval w st tin router (approvalAmount w tin amt) =
          (st₁, ev₃, .ok ())) ∨
       (pyLower tin = pyLower NATIVE_TOKEN ∧ st₁ = st ∧ ev₃ = [])) ∧
      swap w st tin tout amt slip =
        ({ st₁ with txCount := st₁.txCount + 1 },
          [Event.routeQuery tin tout (rawAmountIn w tin amt),
            Event.encodeCall (mkPayload w summary slip)] ++ ev₃ ++
            [Event.swapSubmit (mkBaseTx w tin router enc amt)
              (gasChosen w (mkBaseTx w tin router enc amt))], res) ∧
      ((w.receiptOutcome st₁.txCount = .error () ∧ res = .error .confirmationTimeout) ∨
       (∃ s, w.receiptOutcome st₁.txCount = .ok s ∧
         ((s ≠ 1 ∧ res = .error .swapFailed) ∨
          (s = 1 ∧ res = .ok ("🔄 Swap transaction sent: " ++ w.explorer ++ "/tx/"
            ++ w.txHash st₁.txCount)))))) := by
  cases hw : w.web3Ok with
  | false => exact Or.inl ⟨.web3NotInitialized, by simp [swap, hw]⟩
  | true =>
  cases hk : w.privateKey with
  | none => exact Or.inl ⟨.noWalletConfigured, by simp [swap, hw, hk]⟩
  | some k =>
  cases hb : get_balance w (some w.accountAddr)
      (if pyLower tin = pyLower NATIVE_TOKEN then none else some tin) with
  | error e => exact Or.inl ⟨e, by simp [swap, hw, hk, hb]⟩
  | ok bal =>
  by_cases hlt : bal < amt
  · exact Or.inl ⟨.insufficientBalance amt bal, by simp [swap, hw, hk, hb, hlt]⟩
  · have hroute := get_swap_route_eq w tin tout amt hw
    by_cases hcode : (w.routeResp tin tout (rawAmountIn w tin amt)).code = 0
    · cases hdata : (w.routeResp tin tout (rawAmountIn w tin amt)).data with
      | none =>
        refine Or.inr (Or.inl ⟨.invalidRouteData, ?_⟩)
        simp [swap, hw, hk, hb, hlt, hroute, hcode, hdata]
      | some rd =>
      cases hsum : rd.routeSummary with
      | none =>
        refine Or.inr (Or.inl ⟨.keyError "routeSummary", ?_⟩)
        simp [swap, hw, hk, hb, hlt, hroute, hcode, hdata, hsum]
      | some summary =>
      have henc := get_encoded_swap_data_eq w summary slip hw k hk
      by_cases hecode : (w.encodeResp (mkPayload w summary slip)).code = 0
      case neg =>
        refine Or.inr (Or.inr (Or.inl ⟨summary,
          .encodeApiError (w.encodeResp (mkPayload w summary slip)).message, hcode,
          ⟨rd, rfl, hsum⟩, ?_⟩))
        simp [swap, hw, hk, hb, hlt, hroute, hcode, hdata, hsum, henc, hecode]
      case pos =>
      cases hedata : (w.encodeResp (mkPayload w summary slip)).encodedData with
        | none =>
          refine Or.inr (Or.inr (Or.inl ⟨summary, .invalidEncodedData, hcode,
            ⟨rd, rfl, hsum⟩, ?_⟩))
          simp [swap, hw, hk, hb, hlt, hroute, hcode, hdata, hsum, henc, hecode, hedata]
        | some enc =>
        cases hrouter : rd.routerAddress with
        | none =>
          refine Or.inr (Or.inr (Or.inl ⟨summary, .noRouterAddress, hcode,
            ⟨rd, rfl, hsum⟩, ?_⟩))
          simp [swap, hw, hk, hb, hlt, hroute, hcode, hdata, hsum, henc, hecode, hedata,
            hrouter]
        | some router =>
        by_cases hremp : router = ""
        · refine Or.inr (Or.inr (Or.inl ⟨summary, .noRouterAddress, hcode,
            ⟨rd, rfl, hsum⟩, ?_⟩))
          simp [swap, hw, hk, hb, hlt, hroute, hcode, hdata, hsum, henc, hecode, hedata,
            hrouter, hremp]
        · by_cases hnat : pyLower tin = pyLower NATIVE_TOKEN
          · -- native input: no approval, straight to submission
            rw [if_pos hnat] at hb
            cases hr : w.receiptOutcome st.txCount with
            | error u =>
              cases u
              refine Or.inr (Or.inr (Or.inr (Or.inr ⟨summary, router, enc, st, [],
                .error .confirmationTimeout, hcode, ⟨rd, rfl, hsum, hrouter⟩,
                Or.inr ⟨hnat, rfl, rfl⟩, ?_, Or.inl ⟨hr, rfl⟩⟩)))
              simp [swap, hw, hk, hb, hlt, hroute, hcode, hdata, hsum, henc, hecode,
                hedata, hrouter, hremp, hnat, hr]
            | ok s =>
              by_cases hs : s = 1
              · subst hs
                refine Or.inr (Or.inr (Or.inr (Or.inr ⟨summary, router, enc, st, [],
                  .ok ("🔄 Swap transaction sent: " ++ w.explorer ++ "/tx/"
                    ++ w.txHash st.txCount),
                  hcode, ⟨rd, rfl, hsum, hrouter⟩, Or.inr ⟨hnat, rfl, rfl⟩, ?_,
                  Or.inr ⟨1, hr, Or.inr ⟨rfl, rfl⟩⟩⟩)))
                simp [swap, hw, hk, hb, hlt, hroute, hcode, hdata, hsum, henc, hecode,
                  hedata, hrouter, hremp, hnat, hr]
              · refine Or.inr (Or.inr (Or.inr (Or.inr ⟨summary, router, enc, st, [],
                  .error .swapFailed, hcode, ⟨rd, rfl, hsum, hrouter⟩,
                  Or.inr ⟨hnat, rfl, rfl⟩, ?_, Or.inr ⟨s, hr, Or.inl ⟨hs, rfl⟩⟩⟩)))
                simp [swap, hw, hk, hb, hlt, hroute, hcode, hdata, hsum, henc, hecode,
                  hedata, hrouter, hremp, hnat, hr, hs]
          · -- ERC20 input: through the approval manager first
            rw [if_neg hnat] at hb
            rcases hh : handle_token_approval w st tin router (approvalAmount w tin amt)
              with ⟨st₁, ev₃, r₃⟩
            cases r₃ with
            | error e =>
              refine Or.inr (Or.inr (Or.inr (Or.inl ⟨summary, router, st₁, ev₃, e,
                hcode, ⟨rd, rfl, hsum, hrouter⟩, hnat, hh, ?_⟩)))
              simp [swap, hw, hk, hb, hlt, hroute, hcode, hdata, hsum, henc, hecode,
                hedata, hrouter, hremp, hnat, hh]
            | ok u =>
              cases u
              cases hr : w.receiptOutcome st₁.txCount with
              | error u' =>
                cases u'
                refine Or.inr (Or.inr (Or.inr (Or.inr ⟨summary, router, enc, st₁, ev₃,
                  .error .confirmationTimeout, hcode, ⟨rd, rfl, hsum, hrouter⟩,
                  Or.inl ⟨hnat, hh⟩, ?_, Or.inl ⟨hr, rfl⟩⟩)))
                simp [swap, hw, hk, hb, hlt, hroute, hcode, hdata, hsum, henc, hecode,
                  hedata, hrouter, hremp, hnat, hh, hr]
              | ok s =>
                by_cases hs : s = 1
                · subst hs
                  refine Or.inr (Or.inr (Or.inr (Or.inr ⟨summary, router, enc, st₁, ev₃,
                    .ok ("🔄 Swap transaction sent: " ++ w.explorer ++ "/tx/"
                      ++ w.txHash st₁.txCount),
                    hcode, ⟨rd, rfl, hsum, hrouter⟩, Or.inl ⟨hnat, hh⟩, ?_,
                    Or.inr ⟨1, hr, Or.inr ⟨rfl, rfl⟩⟩⟩)))
                  simp [swap, hw, hk, hb, hlt, hroute, hcode, hdata, hsum, henc, hecode,
                    hedata, hrouter, hremp, hnat, hh, hr]
                · refine Or.inr (Or.inr (Or.inr (Or.inr ⟨summary, router, enc, st₁, ev₃,
                    .error .swapFailed, hcode, ⟨rd, rfl, hsum, hrouter⟩,
                    Or.inl ⟨hnat, hh⟩, ?_, Or.inr ⟨s, hr, Or.inl ⟨hs, rfl⟩⟩⟩)))
                  simp [swap, hw, hk, hb, hlt, hroute, hcode, hdata, hsum, henc, hecode,
                    hedata, hrouter, hremp, hnat, hh, hr, hs]
    · refine Or.inr (Or.inl ⟨.routeApiError
        (w.routeResp tin tout (rawAmountIn w tin amt)).message, ?_⟩)
      simp [swap, hw, hk, hb, hlt, hroute, hcode]

/-- The events of an `_handle_token_approval` run, read off from a
result equation. -/
theorem handle_events_cases (w : World) (st : SwapState) (token spender : Addr)
    (amount : Int) {st₁ : SwapState} {ev₃ : List Event} {r : Except SwapErr Unit}
    (hh : handle_token_approval w st token spender amount = (st₁, ev₃, r)) :
    ∀ e ∈ ev₃, e = Event.allowanceQuery token spender ∨
      e = Event.approvalSubmit token spender amount := by
  have h := handle_events_shape w st token spender amount
  rw [hh] at h
  exact h

end Sonic

/-- Claim C3: when the account's spendable balance of the input token
is strictly below the requested amount, `swap` raises the
insufficient-balance error immediately: no event at all is caused — in
particular no aggregator request, no approval and no submission. -/
theorem C3_insufficient_balance_fails_with_no_network_calls
    (w : Sonic.World) (st : Sonic.SwapState) (tin tout : Addr) (amt slip bal : ℚ)
    (k : String) (hw : w.web3Ok = true) (hk : w.privateKey = some k)
    (hb : Sonic.get_balance w (some w.accountAddr)
      (if pyLower tin = pyLower Sonic.NATIVE_TOKEN then none else some tin) = .ok bal)
    (hlt : bal < amt) :
    Sonic.swap w st tin tout amt slip =
      (st, [], .error (.insufficientBalance amt bal)) := by
  simp [Sonic.swap, hw, hk, hb, hlt]

/-- Witness for C3: balance 5, requested amount 10. -/
theorem C3_witness :
    Sonic.swap lowBalanceWorld st0 Sonic.NATIVE_TOKEN "0xB" 10 (1/2) =
      (st0, [], .error (.insufficientBalance 10 5)) := by
  refine C3_insufficient_balance_fails_with_no_network_calls lowBalanceWorld st0
    Sonic.NATIVE_TOKEN "0xB" 10 (1/2) 5 "0xkey" rfl rfl ?_ (by norm_num)
  norm_num [Sonic.get_balance, lowBalanceWorld, baseWorld]

/-- Claim C4: `_handle_token_approval` is idempotent with respect to
transaction issuance.  When the current allowance already covers the
required amount it changes nothing and submits nothing (and returns
normally when web3 and the key are available); consequently two
successive calls with the same required amount — the second running
only when the first returned — submit at most one approval
transaction. -/
theorem C4_ensure_allowance_idempotent
    (w : Sonic.World) (st : Sonic.SwapState) (token spender : Addr) (amount : Int) :
    (amount ≤ st.chain.allowance token w.accountAddr spender →
      (Sonic.handle_token_approval w st token spender amount).1 = st ∧
      (∀ e ∈ (Sonic.handle_token_approval w st token spender amount).2.1,
        Sonic.isApprovalSubmit e = false) ∧
      (w.web3Ok = true → ∀ k, w.privateKey = some k →
        (Sonic.handle_token_approval w st token spender amount).2.2 = .ok ())) ∧
    (Sonic.handle_token_approval_twice w st token spender amount).2.1.countP
      (fun e => Sonic.isApprovalSubmit e) ≤ 1 := by
  constructor
  · intro hsat
    rcases Sonic.handle_spec w st token spender amount with
      ⟨hw, hh⟩ | ⟨hw, hk, hh⟩ | ⟨hw, ⟨k, hk⟩, hcur, hh⟩ | ⟨hw, ⟨k, hk⟩, hcur, hrest⟩
    · refine ⟨by rw [hh], by rw [hh]; simp, ?_⟩
      intro hw2 k hk2
      rw [hw] at hw2
      cases hw2
    · refine ⟨by rw [hh], by rw [hh]; simp, ?_⟩
      intro _ k hk2
      rw [hk] at hk2
      cases hk2
    · exact ⟨by rw [hh], by rw [hh]; simp [Sonic.isApprovalSubmit],
        fun _ _ _ => by rw [hh]⟩
    · exact absurd (lt_of_lt_of_le hcur hsat) (lt_irrefl _)
  · rcases Sonic.handle_spec w st token spender amount with
      ⟨hw, hh⟩ | ⟨hw, hk, hh⟩ | ⟨hw, ⟨k, hk⟩, hcur, hh⟩ | ⟨hw, ⟨k, hk⟩, hcur, hrest⟩
    · simp [Sonic.handle_token_approval_twice, hh]
    · simp [Sonic.handle_token_approval_twice, hh]
    · simp [Sonic.handle_token_approval_twice, hh, Sonic.isApprovalSubmit]
    · rcases hrest with ⟨hr, hh⟩ | ⟨s, hr, hs, hh⟩ | ⟨hr, hh⟩
      · simp [Sonic.handle_token_approval_twice, hh, Sonic.isApprovalSubmit]
      · simp [Sonic.handle_token_approval_twice, hh, Sonic.isApprovalSubmit]
      · have hsecond : Sonic.handle_token_approval w
            { chain := Sonic.setAllowance st.chain token w.accountAddr spender amount
              txCount := st.txCount + 1 } token spender amount =
            ({ chain := Sonic.setAllowance st.chain token w.accountAddr spender amount
               txCount := st.txCount + 1 },
              [Sonic.Event.allowanceQuery token spender], .ok ()) := by
          simp [Sonic.handle_token_approval, hw, hk, Sonic.setAllowance_self]
        simp [Sonic.handle_token_approval_twice, hh, hsecond, Sonic.isApprovalSubmit]

/-- Witness for C4: with a pre-existing huge allowance the call is a
no-op, and a double call over zero allowance issues at most one
approval. -/
theorem C4_witness :
    (Sonic.handle_token_approval baseWorld stBig "0xT" "0xR" 100).1 = stBig ∧
    (Sonic.handle_token_approval_twice baseWorld st0 "0xT" "0xR" 100).2.1.countP
      (fun e => Sonic.isApprovalSubmit e) ≤ 1 := by
  refine ⟨((C4_ensure_allowance_idempotent baseWorld stBig "0xT" "0xR" 100).1 ?_).1,
    (C4_ensure_allowance_idempotent baseWorld st0 "0xT" "0xR" 100).2⟩
  norm_num [stBig, baseWorld]

/-- The common try/except shape of every dispatch wrapper: whatever the
underlying call does, the wrapper returns normally, and an exception is
converted to the wrapper's sentinel. -/
theorem catchShape (c : Except String Actions.PyVal) (s : Actions.PyVal) :
    Actions.neverRaises
      (match c with
        | .ok r => (.ok r : Except String Actions.PyVal)
        | .error _ => .ok s) ∧
    ∀ e, c = .error e →
      (match c with
        | .ok r => (.ok r : Except String Actions.PyVal)
        | .error _ => .ok s) = .ok s := by
  cases c <;> simp [Actions.neverRaises]

/-- Claim C10: every action of the dispatch layer catches every
exception of the underlying operation and returns normally — the
mutating actions returning `False` and the query actions returning
`None` whenever the underlying call raised. -/
theorem C10_dispatch_blanket_failure_boundary
    (perform : Actions.Perform) (kw : Actions.Kwargs) :
    (Actions.neverRaises (Actions.evm_transfer perform kw) ∧
      ∀ e, perform "evm" "transfer" [Actions.kget kw "to_address",
        Actions.kget kw "amount", Actions.kget kw "token_mint"] = .error e →
        Actions.evm_transfer perform kw = .ok (.bool false)) ∧
    (Actions.neverRaises (Actions.evm_swap perform kw) ∧
      ∀ e, perform "evm" "trade" [Actions.kget kw "output_mint",
        Actions.kget kw "input_amount", Actions.kget kw "input_mint",
        Actions.kgetD kw "slippage_bps" (.num 100)] = .error e →
        Actions.evm_swap perform kw = .ok (.bool false)) ∧
    (Actions.neverRaises (Actions.evm_balance perform kw) ∧
      ∀ e, perform "evm" "get-balance" [Actions.kget kw "token_address"] = .error e →
        Actions.evm_balance perform kw = .ok .none) ∧
    (Actions.neverRaises (Actions.evm_stake perform kw) ∧
      ∀ e, perform "evm" "stake" [Actions.kget kw "amount"] = .error e →
        Actions.evm_stake perform kw = .ok (.bool false)) ∧
    (Actions.neverRaises (Actions.evm_lend perform kw) ∧
      ∀ e, perform "evm" "lend-assets" [Actions.kget kw "amount"] = .error e →
        Actions.evm_lend perform kw = .ok (.bool false)) ∧
    (Actions.neverRaises (Actions.request_faucet_funds perform kw) ∧
      ∀ e, perform "evm" "request-faucet" [] = .error e →
        Actions.request_faucet_funds perform kw = .ok (.bool false)) ∧
    (Actions.neverRaises (Actions.evm_deploy_token perform kw) ∧
      ∀ e, perform "evm" "deploy-token" [Actions.kgetD kw "decimals" (.num 9)] = .error e →
        Actions.evm_deploy_token perform kw = .ok (.bool false)) ∧
    (Actions.neverRaises (Actions.evm_get_price perform kw) ∧
      ∀ e, perform "evm" "fetch-price" [Actions.kget kw "token_id"] = .error e →
        Actions.evm_get_price perform kw = .ok .none) ∧
    (Actions.neverRaises (Actions.evm_get_tps perform kw) ∧
      ∀ e, perform "evm" "get-tps" [] = .error e →
        Actions.evm_get_tps perform kw = .ok .none) ∧
    (Actions.neverRaises (Actions.get_token_data_by_ticker perform kw) ∧
      ∀ e, perform "evm" "get-token-by-ticker" [Actions.kget kw "ticker"] = .error e →
        Actions.get_token_data_by_ticker perform kw = .ok .none) ∧
    (Actions.neverRaises (Actions.get_token_data_by_address perform kw) ∧
      ∀ e, perform "evm" "get-token-by-address" [Actions.kget kw "mint"] = .error e →
        Actions.get_token_data_by_address perform kw = .ok .none) ∧
    (Actions.neverRaises (Actions.launch_pump_fun_token perform kw) ∧
      ∀ e, perform "evm" "launch-pump-token" [Actions.kget kw "token_name",
        Actions.kget kw "token_ticker", Actions.kget kw "description",
        Actions.kget kw "image_url", Actions.kgetD kw "options" .emptyDict] = .error e →
        Actions.launch_pump_fun_token perform kw = .ok (.bool false)) ∧
    (Actions.neverRaises (Actions.list_contract_functions perform kw) ∧
      ∀ e, perform "evm" "list-contract-functions"
        [Actions.kget kw "contract_address"] = .error e →
        Actions.list_contract_functions perform kw = .ok .none) ∧
    (Actions.neverRaises (Actions.call_contract_function perform kw) ∧
      ∀ e, perform "evm" "call-contract-function" [Actions.kget kw "contract_address",
        Actions.kget kw "function_name", Actions.kgetD kw "args" (.list [])] = .error e →
        Actions.call_contract_function perform kw = .ok .none) ∧
    (Actions.neverRaises (Actions.wrap_eth perform kw) ∧
      ∀ e, perform "evm" "wrap-eth" [Actions.kget kw "amount"] = .error e →
        Actions.wrap_eth perform kw = .ok (.bool false)) := by
  exact ⟨catchShape _ _, catchShape _ _, catchShape _ _, catchShape _ _, catchShape _ _,
    catchShape _ _, catchShape _ _, catchShape _ _, catchShape _ _, catchShape _ _,
    catchShape _ _, catchShape _ _, catchShape _ _, catchShape _ _, catchShape _ _⟩

/-- Witness for C10: with an always-raising underlying operation, a
mutating action returns `False` and a query action returns `None`. -/
theorem C10_witness :
    Actions.evm_swap Actions.failPerform Actions.emptyKwargs = .ok (.bool false) ∧
    Actions.evm_balance Actions.failPerform Actions.emptyKwargs = .ok .none := by
  have h := C10_dispatch_blanket_failure_boundary Actions.failPerform Actions.emptyKwargs
  exact ⟨h.2.1.2 "boom" rfl, h.2.2.1.2 "boom" rfl⟩

/-- Claim C2: `EvmTradeHelper.trade` can never return normally: every
run errors out, and any run that reaches the swap submission fails with
the `NameError` on `tx_hash_1`, the approval-transaction hash variable
that is never assigned (its submission line is commented out). -/
theorem C2_trade_never_returns_normally
    (w : Trade.TWorld) (out : Addr) (amt : ℚ) (tin : Option Addr) (bps : Nat) :
    (Trade.trade w out amt tin bps).2 ≠ .ok () ∧
    ∀ tx raw, Trade.TEvent.submitSwap tx raw ∈ (Trade.trade w out amt tin bps).1 →
      (Trade.trade w out amt tin bps).2 = .error (.nameError "tx_hash_1") := by
  cases tin with
  | none => simp [Trade.trade]
  | some qt =>
    by_cases hb : w.quoteBalance > 0
    · by_cases hc : pyStartsWith (pyLower w.userConfirm) "y" = true
      · constructor
        · simp [Trade.trade, hb, hc]
        · intro tx raw _
          simp [Trade.trade, hb, hc]
      · constructor
        · simp [Trade.trade, hb, hc]
        · intro tx raw hm
          simp [Trade.trade, hb, hc] at hm
    · constructor
      · simp [Trade.trade, hb]
      · intro tx raw hm
        simp [Trade.trade, hb] at hm

/-- Witness for C2: a concrete confirmed trade submits the swap and
then dies with the `tx_hash_1` NameError. -/
theorem C2_witness :
    (Trade.trade tradeWorld "0xBASE" 1 (some "0xQUOTE") 100).2 =
      .error (.nameError "tx_hash_1") := by
  refine (C2_trade_never_returns_normally tradeWorld "0xBASE" 1 (some "0xQUOTE") 100).2
    tradeTx2 (pyInt (1 * 10 ^ (18 : ℕ))) ?_
  norm_num [Trade.trade, tradeWorld, tradeTx2, pyStartsWith, pyLower, listLeadsWith,
    show Char.toLower 'y' = 'y' from by decide]

/-- Claim C1 fails on `EvmTradeHelper.trade`: at a concrete input whose
router allowance (0) is below the required raw input amount (10^18),
the run submits the main swap transaction and never submits any
approval transaction — the invariant that a swap must not submit its
main transaction while the allowance is insufficient is violated. -/
theorem C1_trade_submits_swap_without_allowance :
    Trade.TEvent.submitSwap tradeTx2 (pyInt (1 * 10 ^ (18 : ℕ))) ∈
      (Trade.trade tradeWorld "0xBASE" 1 (some "0xQUOTE") 100).1 ∧
    (∀ tx sp a, Trade.TEvent.submitApproval tx sp a ∉
      (Trade.trade tradeWorld "0xBASE" 1 (some "0xQUOTE") 100).1) ∧
    tradeWorld.allowance tradeWorld.accountAddr tradeWorld.routerAddr <
      pyInt (1 * 10 ^ (18 : ℕ)) := by
  have hev : (Trade.trade tradeWorld "0xBASE" 1 (some "0xQUOTE") 100).1 =
      [Trade.TEvent.submitSwap tradeTx2 (pyInt (1 * 10 ^ (18 : ℕ)))] := by
    norm_num [Trade.trade, tradeWorld, tradeTx2, pyStartsWith, pyLower, listLeadsWith,
    show Char.toLower 'y' = 'y' from by decide]
  refine ⟨by rw [hev]; simp, ?_, by norm_num [tradeWorld, pyInt]⟩
  intro tx sp a
  rw [hev]
  simp

/-- Claim C9: `_get_swap_route` converts the human-readable amount to
raw units with the token's on-chain decimals (18 for the native
sentinel) before querying, performs exactly that one query, raises the
route-API error on every non-zero status code, and a swap whose route
query fails never submits an approval or the swap transaction. -/
theorem C9_route_not_found_stops_swap
    (w : Sonic.World) (st : Sonic.SwapState) (tin tout : Addr) (amt slip : ℚ) :
    ((Sonic.get_swap_route w tin tout amt).1 = [] ∨
      (Sonic.get_swap_route w tin tout amt).1 =
        [Sonic.Event.routeQuery tin tout (Sonic.rawAmountIn w tin amt)]) ∧
    (pyLower tin = pyLower Sonic.NATIVE_TOKEN →
      Sonic.rawAmountIn w tin amt = pyInt (amt * 10 ^ (18 : ℕ))) ∧
    (pyLower tin ≠ pyLower Sonic.NATIVE_TOKEN →
      Sonic.rawAmountIn w tin amt = pyInt (amt * 10 ^ w.decimals tin)) ∧
    (w.web3Ok = true → (w.routeResp tin tout (Sonic.rawAmountIn w tin amt)).code ≠ 0 →
      (Sonic.get_swap_route w tin tout amt).2 = .error
        (.routeApiError (w.routeResp tin tout (Sonic.rawAmountIn w tin amt)).message)) ∧
    ((w.routeResp tin tout (Sonic.rawAmountIn w tin amt)).code ≠ 0 →
      ∀ e ∈ (Sonic.swap w st tin tout amt slip).2.1,
        Sonic.isApprovalSubmit e = false ∧ Sonic.isSwapSubmit e = false) := by
  refine ⟨?_, ?_, ?_, ?_, ?_⟩
  · cases hw : w.web3Ok with
    | false => exact Or.inl (by simp [Sonic.get_swap_route, hw])
    | true => exact Or.inr (by rw [Sonic.get_swap_route_eq w tin tout amt hw])
  · intro h
    simp [Sonic.rawAmountIn, h, toWei]
  · intro h
    simp [Sonic.rawAmountIn, h]
  · intro hw hcode
    rw [Sonic.get_swap_route_eq w tin tout amt hw]
    simp [hcode]
  · intro hcode e he
    rcases Sonic.swap_spec w st tin tout amt slip with
      ⟨e₀, hs⟩ | ⟨e₀, hs⟩ | ⟨summary, e₀, hc, hrd, hs⟩ |
      ⟨summary, router, st₁, ev₃, e₀, hc, hrd, hnn, hh, hs⟩ |
      ⟨summary, router, enc, st₁, ev₃, res, hc, hrd, happ, hs, hrec⟩
    · rw [hs] at he
      simp at he
    · rw [hs] at he
      simp at he
      simp [he, Sonic.isApprovalSubmit, Sonic.isSwapSubmit]
    · exact absurd hc hcode
    · exact absurd hc hcode
    · exact absurd hc hcode

/-- Witness for C9: the aggregator answers `code = 4`; the route helper
raises the route-API error and a full swap attempt causes neither an
approval submission nor a swap submission. -/
theorem C9_witness :
    (Sonic.get_swap_route routeFailWorld Sonic.NATIVE_TOKEN "0xB" 10).2 =
      .error (.routeApiError "no route") := by
  have h := (C9_route_not_found_stops_swap routeFailWorld st0
    Sonic.NATIVE_TOKEN "0xB" 10 (1/2)).2.2.2.1 rfl (by norm_num [routeFailWorld, baseWorld])
  simpa [routeFailWorld, baseWorld] using h

/-- Claim C6: with a native input token the approval manager is never
invoked (no allowance read, no approval submission) and the submitted
transaction carries the raw native amount as `value`; with an ERC20
input the `value` is zero; and whenever the confirmed receipt of the
submitted swap reports a non-success status the swap fails with the
swap-failed error. -/
theorem C6_native_value_and_swap_failed
    (w : Sonic.World) (st : Sonic.SwapState) (tin tout : Addr) (amt slip : ℚ) :
    (pyLower tin = pyLower Sonic.NATIVE_TOKEN →
      (∀ e ∈ (Sonic.swap w st tin tout amt slip).2.1,
        Sonic.isAllowanceQuery e = false ∧ Sonic.isApprovalSubmit e = false) ∧
      (∀ tx g, Sonic.Event.swapSubmit tx g ∈ (Sonic.swap w st tin tout amt slip).2.1 →
        tx.value = toWei amt)) ∧
    (pyLower tin ≠ pyLower Sonic.NATIVE_TOKEN →
      ∀ tx g, Sonic.Event.swapSubmit tx g ∈ (Sonic.swap w st tin tout amt slip).2.1 →
        tx.value = 0) ∧
    (∀ tx g s, Sonic.Event.swapSubmit tx g ∈ (Sonic.swap w st tin tout amt slip).2.1 →
      w.receiptOutcome ((Sonic.swap w st tin tout amt slip).1.txCount - 1) = .ok s →
      s ≠ 1 → (Sonic.swap w st tin tout amt slip).2.2 = .error .swapFailed) := by
  rcases Sonic.swap_spec w st tin tout amt slip with
    ⟨e₀, hs⟩ | ⟨e₀, hs⟩ | ⟨summary, e₀, hc, hrd, hs⟩ |
    ⟨summary, router, st₁, ev₃, e₀, hc, hrd, hnn, hh, hs⟩ |
    ⟨summary, router, enc, st₁, ev₃, res, hc, hrd, happ, hs, hrec⟩
  · refine ⟨fun _ => ⟨?_, ?_⟩, fun _ => ?_, fun tx g s hm => ?_⟩
    · intro e he
      rw [hs] at he
      simp at he
    · intro tx g hm
      rw [hs] at hm
      simp at hm
    · intro tx g hm
      rw [hs] at hm
      simp at hm
    · rw [hs] at hm
      simp at hm
  · refine ⟨fun _ => ⟨?_, ?_⟩, fun _ => ?_, fun tx g s hm => ?_⟩
    · intro e he
      rw [hs] at he
      simp at he
      simp [he, Sonic.isAllowanceQuery, Sonic.isApprovalSubmit]
    · intro tx g hm
      rw [hs] at hm
      simp at hm
    · intro tx g hm
      rw [hs] at hm
      simp at hm
    · rw [hs] at hm
      simp at hm
  · refine ⟨fun _ => ⟨?_, ?_⟩, fun _ => ?_, fun tx g s hm => ?_⟩
    · intro e he
      rw [hs] at he
      simp at he
      rcases he with he | he <;>
        simp [he, Sonic.isAllowanceQuery, Sonic.isApprovalSubmit]
    · intro tx g hm
      rw [hs] at hm
      simp at hm
    · intro tx g hm
      rw [hs] at hm
      simp at hm
    · rw [hs] at hm
      simp at hm
  · -- approval-stage failure: no swap submission at all
    have hev := Sonic.handle_events_cases w st tin router
      (Sonic.approvalAmount w tin amt) hh
    have hnosub : ∀ tx g,
        Sonic.Event.swapSubmit tx g ∉ (Sonic.swap w st tin tout amt slip).2.1 := by
      intro tx g hm
      rw [hs] at hm
      rcases List.mem_append.mp hm with hm2 | hm2
      · simp at hm2
      · rcases hev _ hm2 with h | h <;> simp at h
    exact ⟨fun hnat => absurd hnat hnn, fun _ tx g hm => absurd hm (hnosub tx g),
      fun tx g s hm => absurd hm (hnosub tx g)⟩
  · -- submission reached
    have hev : ∀ e ∈ ev₃, e = Sonic.Event.allowanceQuery tin router ∨
        e = Sonic.Event.approvalSubmit tin router (Sonic.approvalAmount w tin amt) := by
      rcases happ with ⟨hnn2, hh⟩ | ⟨hnat, hst, hev3⟩
      · exact Sonic.handle_events_cases w st tin router (Sonic.approvalAmount w tin amt) hh
      · subst hev3
        simp
    have hsubtx : ∀ tx g, Sonic.Event.swapSubmit tx g ∈
        (Sonic.swap w st tin tout amt slip).2.1 →
        tx = Sonic.mkBaseTx w tin router enc amt := by
      intro tx g hm
      rw [hs] at hm
      rcases List.mem_append.mp hm with hm2 | hm2
      · rcases List.mem_append.mp hm2 with hm3 | hm3
        · simp at hm3
        · rcases hev _ hm3 with h | h <;> simp at h
      · simp at hm2
        exact hm2.1
    refine ⟨fun hnat => ⟨?_, ?_⟩, fun hnn2 tx g hm => ?_, fun tx g s hm hr hs1 => ?_⟩
    · intro e he
      rcases happ with ⟨hnn2, _⟩ | ⟨_, _, hev3⟩
      · exact absurd hnat hnn2
      · subst hev3
        rw [hs] at he
        simp at he
        rcases he with he | he | he <;>
          simp [he, Sonic.isAllowanceQuery, Sonic.isApprovalSubmit]
    · intro tx g hm
      have htx := hsubtx tx g hm
      simp [htx, Sonic.mkBaseTx, hnat]
    · have htx := hsubtx tx g hm
      simp [htx, Sonic.mkBaseTx, hnn2]
    · rw [hs] at hr ⊢
      simp only [] at hr ⊢
      have hidx : ({ st₁ with txCount := st₁.txCount + 1 } : Sonic.SwapState).txCount - 1
          = st₁.txCount := by simp
      rw [hidx] at hr
      rcases hrec with ⟨hre, hres⟩ | ⟨s2, hre, hcase⟩
      · rw [hre] at hr
        cases hr
      · rw [hre] at hr
        have hss : s2 = s := by injection hr
        subst hss
        rcases hcase with ⟨_, hres⟩ | ⟨hs2, hres⟩
        · simp [hres]
        · exact absurd hs2 hs1

/-- Witness for C6: a concrete native-input swap whose receipt reports
status 0 causes no approval-manager activity and fails with the
swap-failed error. -/
theorem C6_witness :
    Sonic.isAllowanceQuery (Sonic.Event.routeQuery Sonic.NATIVE_TOKEN "0xB" (toWei 1))
      = false ∧
    (Sonic.swap receiptFailWorld st0 Sonic.NATIVE_TOKEN "0xB" 1 (1/2)).2.2 =
      .error .swapFailed := by
  have heq : Sonic.swap receiptFailWorld st0 Sonic.NATIVE_TOKEN "0xB" 1 (1/2) =
      ({ chain := st0.chain, txCount := 1 },
        [Sonic.Event.routeQuery Sonic.NATIVE_TOKEN "0xB" (toWei 1),
          Sonic.Event.encodeCall (Sonic.mkPayload receiptFailWorld "sum" (1/2)),
          Sonic.Event.swapSubmit
            (Sonic.mkBaseTx receiptFailWorld Sonic.NATIVE_TOKEN "0xR" "0xdata" 1) 21000],
        .error .swapFailed) := by
    norm_num [Sonic.swap, Sonic.get_balance, Sonic.get_swap_route,
      Sonic.get_encoded_swap_data, Sonic.rawAmountIn, Sonic.gasChosen,
      receiptFailWorld, baseWorld, st0, show ("0xR" : String) ≠ "" from by decide]
  have h := C6_native_value_and_swap_failed receiptFailWorld st0
    Sonic.NATIVE_TOKEN "0xB" 1 (1/2)
  constructor
  · exact ((h.1 rfl).1 _ (by rw [heq]; simp)).1
  · refine h.2.2 (Sonic.mkBaseTx receiptFailWorld Sonic.NATIVE_TOKEN "0xR" "0xdata" 1)
      21000 0 (by rw [heq]; simp) ?_ (by decide)
    rw [heq]
    rfl

/-- Claim C5 (amended): for every swap with a non-native input token,
every approval transaction approves the input token for exactly the
spender taken from the route data's router address and for exactly the
amount `swap` computes — which is the input amount converted with the
token's on-chain decimals, except for the hard-coded `S_TOKEN` address
where 18 decimals are assumed via `to_wei` without an on-chain query —
and if the confirmed approval receipt reports non-success the swap
fails with the approval-failed error. -/
theorem C5_approval_exact_amount_and_router
    (w : Sonic.World) (st : Sonic.SwapState) (tin tout : Addr) (amt slip : ℚ)
    (hnn : pyLower tin ≠ pyLower Sonic.NATIVE_TOKEN) :
    (∀ t sp a, Sonic.Event.approvalSubmit t sp a ∈
        (Sonic.swap w st tin tout amt slip).2.1 →
      t = tin ∧ a = Sonic.approvalAmount w tin amt ∧
      ∃ rd, (w.routeResp tin tout (Sonic.rawAmountIn w tin amt)).data = some rd ∧
        rd.routerAddress = some sp) ∧
    ((pyLower tin = pyLower Sonic.S_TOKEN →
        Sonic.approvalAmount w tin amt = toWei amt) ∧
      (pyLower tin ≠ pyLower Sonic.S_TOKEN →
        Sonic.approvalAmount w tin amt = pyInt (amt * 10 ^ w.decimals tin))) ∧
    (∀ t sp a, Sonic.Event.approvalSubmit t sp a ∈
        (Sonic.swap w st tin tout amt slip).2.1 →
      ∀ s, w.receiptOutcome st.txCount = .ok s → s ≠ 1 →
        (Sonic.swap w st tin tout amt slip).2.2 = .error .approvalFailed) := by
  refine ⟨?_, ⟨fun h => by simp [Sonic.approvalAmount, h],
    fun h => by simp [Sonic.approvalAmount, h]⟩, ?_⟩
  · -- every submitted approval names the input token, the computed
    -- amount, and the router taken from the route data
    intro t sp a hm
    rcases Sonic.swap_spec w st tin tout amt slip with
      ⟨e₀, hs⟩ | ⟨e₀, hs⟩ | ⟨summary, e₀, hc, hrd, hs⟩ |
      ⟨summary, router, st₁, ev₃, e₀, hc, hrd, hnn2, hh, hs⟩ |
      ⟨summary, router, enc, st₁, ev₃, res, hc, hrd, happ, hs, hrec⟩
    · rw [hs] at hm
      simp at hm
    · rw [hs] at hm
      simp at hm
    · rw [hs] at hm
      simp at hm
    · rw [hs] at hm
      have hev := Sonic.handle_events_cases w st tin router
        (Sonic.approvalAmount w tin amt) hh
      rcases List.mem_append.mp hm with hm2 | hm2
      · simp at hm2
      · rcases hev _ hm2 with h | h
        · simp at h
        · simp only [Sonic.Event.approvalSubmit.injEq] at h
          obtain ⟨h1, h2, h3⟩ := h
          subst h1
          subst h3
          refine ⟨rfl, rfl, ?_⟩
          obtain ⟨rd, hdata, _, hrouter⟩ := hrd
          exact ⟨rd, hdata, by rw [hrouter, h2]⟩
    · rw [hs] at hm
      have hev : ∀ e ∈ ev₃, e = Sonic.Event.allowanceQuery tin router ∨
          e = Sonic.Event.approvalSubmit tin router (Sonic.approvalAmount w tin amt) := by
        rcases happ with ⟨hnn2, hh⟩ | ⟨hnat, hst, hev3⟩
        · exact Sonic.handle_events_cases w st tin router
            (Sonic.approvalAmount w tin amt) hh
        · subst hev3
          simp
      rcases List.mem_append.mp hm with hm2 | hm2
      · rcases List.mem_append.mp hm2 with hm3 | hm3
        · simp at hm3
        · rcases hev _ hm3 with h | h
          · simp at h
          · simp only [Sonic.Event.approvalSubmit.injEq] at h
            obtain ⟨h1, h2, h3⟩ := h
            subst h1
            subst h3
            refine ⟨rfl, rfl, ?_⟩
            obtain ⟨rd, hdata, _, hrouter⟩ := hrd
            exact ⟨rd, hdata, by rw [hrouter, h2]⟩
      · simp at hm2
  · -- a failed approval receipt turns into the approval-failed error
    intro t sp a hm s hr hs1
    rcases Sonic.swap_spec w st tin tout amt slip with
      ⟨e₀, hs⟩ | ⟨e₀, hs⟩ | ⟨summary, e₀, hc, hrd, hs⟩ |
      ⟨summary, router, st₁, ev₃, e₀, hc, hrd, hnn2, hh, hs⟩ |
      ⟨summary, router, enc, st₁, ev₃, res, hc, hrd, happ, hs, hrec⟩
    · rw [hs] at hm
      simp at hm
    · rw [hs] at hm
      simp at hm
    · rw [hs] at hm
      simp at hm
    · rw [hs] at hm
      rcases List.mem_append.mp hm with hm2 | hm2
      · simp at hm2
      · rw [hs]
        rcases Sonic.handle_spec w st tin router (Sonic.approvalAmount w tin amt) with
          ⟨_, hh2⟩ | ⟨_, _, hh2⟩ | ⟨_, _, _, hh2⟩ |
          ⟨_, _, _, ⟨hre, hh2⟩ | ⟨s2, hre, hs2, hh2⟩ | ⟨hre, hh2⟩⟩
        · rw [hh] at hh2
          simp at hh2
          rw [hh2.2.1] at hm2
          simp at hm2
        · rw [hh] at hh2
          simp at hh2
          rw [hh2.2.1] at hm2
          simp at hm2
        · rw [hh] at hh2
          simp at hh2
        · rw [hre] at hr
          cases hr
        · rw [hh] at hh2
          simp at hh2
          simp [hh2.2.2]
        · rw [hh] at hh2
          simp at hh2
    · rw [hs] at hm
      rcases List.mem_append.mp hm with hm2 | hm2
      · rcases List.mem_append.mp hm2 with hm3 | hm3
        · simp at hm3
        · rcases happ with ⟨hnn2, hh⟩ | ⟨hnat, hst, hev3⟩
          · rcases Sonic.handle_spec w st tin router (Sonic.approvalAmount w tin amt) with
              ⟨_, hh2⟩ | ⟨_, _, hh2⟩ | ⟨_, _, _, hh2⟩ |
              ⟨_, _, _, ⟨hre, hh2⟩ | ⟨s2, hre, hs2, hh2⟩ | ⟨hre, hh2⟩⟩
            · rw [hh] at hh2
              simp at hh2
            · rw [hh] at hh2
              simp at hh2
            · rw [hh] at hh2
              simp at hh2
              rw [hh2.2] at hm3
              simp at hm3
            · rw [hh] at hh2
              simp at hh2
            · rw [hh] at hh2
              simp at hh2
            · rw [hre] at hr
              have h1s : (1 : ℕ) = s := by injection hr
              exact absurd h1s.symm hs1
          · subst hev3
            simp at hm3
      · simp at hm2

/-- Counterexample for C5: with the hard-coded `S_TOKEN` address as a
non-native input and on-chain decimals 6, the only approval submitted
approves `to_wei(amount)` (18 decimals — here 10^18), never the amount
converted with the token's on-chain decimals (10^6), refuting the claim
that the required amount always uses the on-chain decimals. -/
theorem C5_counterexample :
    Sonic.Event.approvalSubmit Sonic.S_TOKEN "0xR" (toWei 1) ∈
      (Sonic.swap sixDecimalsWorld st0 Sonic.S_TOKEN "0xB" 1 (1/2)).2.1 ∧
    sixDecimalsWorld.decimals Sonic.S_TOKEN = 6 ∧
    pyInt (1 * 10 ^ (6 : ℕ)) = (10 ^ 6 : Int) ∧ toWei 1 = (10 ^ 18 : Int) ∧
    (∀ t sp a, Sonic.Event.approvalSubmit t sp a ∈
        (Sonic.swap sixDecimalsWorld st0 Sonic.S_TOKEN "0xB" 1 (1/2)).2.1 →
      a ≠ pyInt (1 * 10 ^ sixDecimalsWorld.decimals Sonic.S_TOKEN)) := by
  have heq : Sonic.swap sixDecimalsWorld st0 Sonic.S_TOKEN "0xB" 1 (1/2) =
      ({ chain := Sonic.setAllowance st0.chain Sonic.S_TOKEN "0xACC" "0xR"
            (1000000000000000000 : Int), txCount := 2 },
        [Sonic.Event.routeQuery Sonic.S_TOKEN "0xB" (1000000 : Int),
          Sonic.Event.encodeCall (Sonic.mkPayload sixDecimalsWorld "sum" (1/2)),
          Sonic.Event.allowanceQuery Sonic.S_TOKEN "0xR",
          Sonic.Event.approvalSubmit Sonic.S_TOKEN "0xR" (1000000000000000000 : Int),
          Sonic.Event.swapSubmit
            (Sonic.mkBaseTx sixDecimalsWorld Sonic.S_TOKEN "0xR" "0xdata" 1) 21000],
        .ok ("🔄 Swap transaction sent: " ++ "https://scan" ++ "/tx/" ++ "0xhash")) := by
    norm_num [Sonic.swap, Sonic.get_balance, Sonic.get_swap_route,
      Sonic.get_encoded_swap_data, Sonic.rawAmountIn, Sonic.gasChosen,
      Sonic.handle_token_approval, Sonic.approvalAmount, toWei, pyInt,
      sixDecimalsWorld, baseWorld, st0,
      show ("0xR" : String) ≠ "" from by decide,
      show pyLower Sonic.S_TOKEN ≠ pyLower Sonic.NATIVE_TOKEN from by decide]
  have hw1 : toWei 1 = (1000000000000000000 : Int) := by norm_num [toWei, pyInt]
  refine ⟨by rw [heq, hw1]; simp, rfl, by norm_num [pyInt], by rw [hw1]; norm_num, ?_⟩
  intro t sp a hm
  rw [heq] at hm
  simp at hm
  have h6 : pyInt (1 * 10 ^ sixDecimalsWorld.decimals Sonic.S_TOKEN)
      = (1000000 : Int) := by
    norm_num [pyInt, sixDecimalsWorld, baseWorld]
  rw [h6]
  rcases hm with ⟨_, _, ha⟩
  rw [ha]
  norm_num

/-- Witness for C5 (amended): for the hard-coded `S_TOKEN` input the
computed approval amount is the 18-decimals `to_wei` conversion. -/
theorem C5_witness :
    Sonic.approvalAmount sixDecimalsWorld Sonic.S_TOKEN 1 = toWei 1 ∧
    toWei 1 = (10 ^ 18 : Int) := by
  have h := C5_approval_exact_amount_and_router sixDecimalsWorld st0
    Sonic.S_TOKEN "0xB" 1 (1/2) (by decide)
  exact ⟨h.2.1.1 rfl, by norm_num [toWei, pyInt]⟩

/-- Claim C7: with a gas estimator that always raises, a swap whose
earlier stages succeed still proceeds to submission, with the fixed
fallback gas limit of 500000 units; moreover every submission under a
failing estimator carries gas 500000. -/
theorem C7_gas_estimation_failure_never_aborts
    (w : Sonic.World) (st st₁ : Sonic.SwapState) (tin tout : Addr)
    (amt slip bal : ℚ) (k summary router enc : String) (rd : Sonic.RouteData)
    (ev₃ : List Sonic.Event)
    (hfail : ∀ tx, w.estimateGas tx = .error ())
    (hw : w.web3Ok = true) (hk : w.privateKey = some k)
    (hb : Sonic.get_balance w (some w.accountAddr)
      (if pyLower tin = pyLower Sonic.NATIVE_TOKEN then none else some tin) = .ok bal)
    (hlt : ¬ bal < amt)
    (hcode : (w.routeResp tin tout (Sonic.rawAmountIn w tin amt)).code = 0)
    (hdata : (w.routeResp tin tout (Sonic.rawAmountIn w tin amt)).data = some rd)
    (hsum : rd.routeSummary = some summary)
    (hecode : (w.encodeResp (Sonic.mkPayload w summary slip)).code = 0)
    (hedata : (w.encodeResp (Sonic.mkPayload w summary slip)).encodedData = some enc)
    (hrouter : rd.routerAddress = some router) (hremp : ¬ router = "")
    (happ : (if pyLower tin ≠ pyLower Sonic.NATIVE_TOKEN then
        Sonic.handle_token_approval w st tin router (Sonic.approvalAmount w tin amt)
      else (st, [], .ok ())) = (st₁, ev₃, .ok ())) :
    Sonic.Event.swapSubmit (Sonic.mkBaseTx w tin router enc amt) 500000 ∈
      (Sonic.swap w st tin tout amt slip).2.1 ∧
    Sonic.gasChosen w (Sonic.mkBaseTx w tin router enc amt) = 500000 ∧
    (∀ tx g2, Sonic.Event.swapSubmit tx g2 ∈ (Sonic.swap w st tin tout amt slip).2.1 →
      g2 = 500000) := by
  have hroute := Sonic.get_swap_route_eq w tin tout amt hw
  have henc := Sonic.get_encoded_swap_data_eq w summary slip hw k hk
  have hgas : Sonic.gasChosen w (Sonic.mkBaseTx w tin router enc amt) = 500000 := by
    simp [Sonic.gasChosen, hfail]
  refine ⟨?_, hgas, ?_⟩
  · cases hr : w.receiptOutcome st₁.txCount with
    | error u =>
      simp [Sonic.swap, hw, hk, hb, hlt, hroute, hcode, hdata, hsum, henc, hecode,
        hedata, hrouter, hremp, happ, hr, hgas]
    | ok s =>
      by_cases hs : s = 1 <;>
        simp [Sonic.swap, hw, hk, hb, hlt, hroute, hcode, hdata, hsum, henc, hecode,
          hedata, hrouter, hremp, happ, hr, hs, hgas]
  · intro tx g2 hm
    rcases Sonic.swap_spec w st tin tout amt slip with
      ⟨e₀, hs⟩ | ⟨e₀, hs⟩ | ⟨summary2, e₀, hc2, hrd2, hs⟩ |
      ⟨summary2, router2, st2, ev2, e₀, hc2, hrd2, hnn2, hh2, hs⟩ |
      ⟨summary2, router2, enc2, st2, ev2, res, hc2, hrd2, happ2, hs, hrec⟩
    · rw [hs] at hm
      simp at hm
    · rw [hs] at hm
      simp at hm
    · rw [hs] at hm
      simp at hm
    · rw [hs] at hm
      have hev := Sonic.handle_events_cases w st tin router2
        (Sonic.approvalAmount w tin amt) hh2
      rcases List.mem_append.mp hm with hm2 | hm2
      · simp at hm2
      · rcases hev _ hm2 with h | h <;> simp at h
    · rw [hs] at hm
      have hev : ∀ e ∈ ev2, e = Sonic.Event.allowanceQuery tin router2 ∨
          e = Sonic.Event.approvalSubmit tin router2 (Sonic.approvalAmount w tin amt) := by
        rcases happ2 with ⟨hnn2, hh2⟩ | ⟨hnat2, hst2, hev2⟩
        · exact Sonic.handle_events_cases w st tin router2
            (Sonic.approvalAmount w tin amt) hh2
        · subst hev2
          simp
      rcases List.mem_append.mp hm with hm2 | hm2
      · rcases List.mem_append.mp hm2 with hm3 | hm3
        · simp at hm3
        · rcases hev _ hm3 with h | h <;> simp at h
      · simp at hm2
        rw [hm2.2, Sonic.gasChosen]
        simp [hfail]

/-- Witness for C7: a concrete native swap with an always-failing
estimator still submits, with gas 500000. -/
theorem C7_witness :
    Sonic.Event.swapSubmit
      (Sonic.mkBaseTx estimateFailWorld Sonic.NATIVE_TOKEN "0xR" "0xdata" 1) 500000 ∈
      (Sonic.swap estimateFailWorld st0 Sonic.NATIVE_TOKEN "0xB" 1 (1/2)).2.1 ∧
    Sonic.gasChosen estimateFailWorld
      (Sonic.mkBaseTx estimateFailWorld Sonic.NATIVE_TOKEN "0xR" "0xdata" 1) = 500000 := by
  have h := C7_gas_estimation_failure_never_aborts estimateFailWorld st0 st0
    Sonic.NATIVE_TOKEN "0xB" 1 (1/2) 100 "0xkey" "sum" "0xR" "0xdata"
    { routeSummary := some "sum", routerAddress := some "0xR" } []
    (fun _ => rfl) rfl rfl
    (by norm_num [Sonic.get_balance, estimateFailWorld, baseWorld])
    (by norm_num) rfl rfl rfl rfl rfl rfl (by decide) (by simp)
  exact ⟨h.1, h.2.1⟩

/-- Claim C8 (amended): every route-build request carries a deadline of
the current time plus 1200 seconds and a slippage tolerance of
`int(slippage * 100)` basis points — under the swap operation's default
slippage parameter (0.5) that is 50 basis points — and the encode step
fails with the encode-API error on a non-zero status code and with the
invalid-data error when the call-data field is missing. -/
theorem C8_encode_deadline_and_slippage
    (w : Sonic.World) (s : String) (sl : ℚ) (k : String)
    (hw : w.web3Ok = true) (hk : w.privateKey = some k) :
    (Sonic.get_encoded_swap_data w s sl).1 =
      [Sonic.Event.encodeCall (Sonic.mkPayload w s sl)] ∧
    (Sonic.mkPayload w s sl).deadline = w.timeNow + 1200 ∧
    (Sonic.mkPayload w s sl).slippageTolerance = pyInt (sl * 100) ∧
    pyInt ((1/2 : ℚ) * 100) = 50 ∧
    (∀ (w2 : Sonic.World) (st2 : Sonic.SwapState) (tin2 tout2 : Addr) (amt2 : ℚ)
        (p : Sonic.EncodePayload),
      Sonic.Event.encodeCall p ∈ (Sonic.swap w2 st2 tin2 tout2 amt2).2.1 →
      p.slippageTolerance = 50 ∧ p.deadline = w2.timeNow + 1200) ∧
    ((w.encodeResp (Sonic.mkPayload w s sl)).code ≠ 0 →
      (Sonic.get_encoded_swap_data w s sl).2 =
        .error (.encodeApiError (w.encodeResp (Sonic.mkPayload w s sl)).message)) ∧
    ((w.encodeResp (Sonic.mkPayload w s sl)).code = 0 →
      (w.encodeResp (Sonic.mkPayload w s sl)).encodedData = none →
      (Sonic.get_encoded_swap_data w s sl).2 = .error .invalidEncodedData) := by
  have henc := Sonic.get_encoded_swap_data_eq w s sl hw k hk
  refine ⟨by rw [henc], rfl, rfl, by norm_num [pyInt], ?_, ?_, ?_⟩
  · intro w2 st2 tin2 tout2 amt2 p hm
    have hsum : ∃ summary, p = Sonic.mkPayload w2 summary (1/2) := by
      rcases Sonic.swap_spec w2 st2 tin2 tout2 amt2 (1/2) with
        ⟨e₀, hs⟩ | ⟨e₀, hs⟩ | ⟨summary, e₀, hc, hrd, hs⟩ |
        ⟨summary, router, st₃, ev₃, e₀, hc, hrd, hnn, hh, hs⟩ |
        ⟨summary, router, enc, st₃, ev₃, res, hc, hrd, happ, hs, hrec⟩
      · rw [hs] at hm
        simp at hm
      · rw [hs] at hm
        simp at hm
      · rw [hs] at hm
        simp at hm
        exact ⟨summary, by rw [hm]; norm_num⟩
      · rw [hs] at hm
        have hev := Sonic.handle_events_cases w2 st2 tin2 router
          (Sonic.approvalAmount w2 tin2 amt2) hh
        rcases List.mem_append.mp hm with hm2 | hm2
        · simp at hm2
          exact ⟨summary, by rw [hm2]; norm_num⟩
        · rcases hev _ hm2 with h | h <;> simp at h
      · rw [hs] at hm
        have hev : ∀ e ∈ ev₃, e = Sonic.Event.allowanceQuery tin2 router ∨
            e = Sonic.Event.approvalSubmit tin2 router
              (Sonic.approvalAmount w2 tin2 amt2) := by
          rcases happ with ⟨hnn, hh⟩ | ⟨hnat, hst, hev3⟩
          · exact Sonic.handle_events_cases w2 st2 tin2 router
              (Sonic.approvalAmount w2 tin2 amt2) hh
          · subst hev3
            simp
        rcases List.mem_append.mp hm with hm2 | hm2
        · rcases List.mem_append.mp hm2 with hm3 | hm3
          · simp at hm3
            exact ⟨summary, by rw [hm3]; norm_num⟩
          · rcases hev _ hm3 with h | h <;> simp at h
        · simp at hm2
    obtain ⟨summary, hp⟩ := hsum
    subst hp
    exact ⟨by norm_num [Sonic.mkPayload, pyInt], rfl⟩
  · intro hcode
    rw [henc]
    simp [hcode]
  · intro hcode hdata
    rw [henc]
    simp [hcode, hdata]

/-- Counterexample for C8: under the swap operation's default slippage
parameter the route-build request carries 50 basis points, not 100. -/
theorem C8_counterexample :
    Sonic.Event.encodeCall (Sonic.mkPayload baseWorld "sum" (1/2)) ∈
      (Sonic.swap baseWorld st0 Sonic.NATIVE_TOKEN "0xB" 1).2.1 ∧
    (Sonic.mkPayload baseWorld "sum" (1/2)).slippageTolerance = 50 ∧
    (∀ p, Sonic.Event.encodeCall p ∈
        (Sonic.swap baseWorld st0 Sonic.NATIVE_TOKEN "0xB" 1).2.1 →
      p.slippageTolerance ≠ 100) := by
  have heq : Sonic.swap baseWorld st0 Sonic.NATIVE_TOKEN "0xB" 1 =
      ({ chain := st0.chain, txCount := 1 },
        [Sonic.Event.routeQuery Sonic.NATIVE_TOKEN "0xB" (toWei 1),
          Sonic.Event.encodeCall (Sonic.mkPayload baseWorld "sum" (1/2)),
          Sonic.Event.swapSubmit
            (Sonic.mkBaseTx baseWorld Sonic.NATIVE_TOKEN "0xR" "0xdata" 1) 21000],
        .ok ("🔄 Swap transaction sent: " ++ "https://scan" ++ "/tx/" ++ "0xhash")) := by
    norm_num [Sonic.swap, Sonic.get_balance, Sonic.get_swap_route,
      Sonic.get_encoded_swap_data, Sonic.rawAmountIn, Sonic.gasChosen,
      baseWorld, st0, show ("0xR" : String) ≠ "" from by decide]
  refine ⟨by rw [heq]; simp, by norm_num [Sonic.mkPayload, pyInt], ?_⟩
  intro p hp
  rw [heq] at hp
  simp at hp
  rw [hp]
  norm_num [Sonic.mkPayload, pyInt]

/-- Witness for C8 (amended): a concrete failing route-build call
raises the encode-API error, and the default-slippage payload carries
deadline `timeNow + 1200` and 50 basis points. -/
theorem C8_witness :
    (Sonic.get_encoded_swap_data encodeFailWorld "sum" (1/2)).2 =
      .error (.encodeApiError "err") ∧
    (Sonic.mkPayload encodeFailWorld "sum" (1/2)).deadline =
      encodeFailWorld.timeNow + 1200 ∧
    pyInt ((1/2 : ℚ) * 100) = 50 := by
  have h := C8_encode_deadline_and_slippage encodeFailWorld "sum" (1/2) "0xkey" rfl rfl
  exact ⟨h.2.2.2.2.2.1 (by norm_num [encodeFailWorld, baseWorld]), h.2.1, h.2.2.2.1⟩

end ZerePy
